import Mathlib

/-!
Shallow embedding of `src/app/app.py`, a small Flask service with five
handlers (health, info, data, error, compute) plus a metrics endpoint,
wrapped by a request-metrics interceptor.

Modelling conventions:
* JSON values produced by `request.get_json()` are the inductive `JsonVal`;
  Python floats are modelled as rationals (doubling, the only arithmetic the
  service performs on them, is exact).
* A handler is a function into `Except Unit Resp`: `.error ()` models an
  uncaught Python exception (`TypeError`, ...) escaping the handler.
* Counter increments (`ERROR_COUNT.labels(endpoint, kind).inc()`) performed
  on the way to a response are recorded in the response value `Resp.incs`.
* The filesystem is passed in as two functions: `isfile : String → Bool`
  (`os.path.isfile`) and `readF : String → Option String` (`open(..).read()`,
  `none` modelling a raised read error).
-/

/-- JSON value as returned by `request.get_json()`.  Python `bool` is kept
separate from `int` because the two behave differently under `isinstance`
checks (`bool` is a subclass of `int`). -/
inductive JsonVal where
  | jnull
  | jbool (b : Bool)
  | jint (n : Int)
  | jfloat (q : Rat)
  | jstr (s : String)
  | jarr (elems : List JsonVal)
  | jobj (fields : List (String × JsonVal))

open JsonVal

/-- Python truthiness (`bool(x)`) on JSON values: `None`, `False`, zero,
empty string and empty containers are falsy. -/
def truthy : JsonVal → Bool
  | jnull => false
  | jbool b => b
  | jint n => n != 0
  | jfloat q => q != 0
  | jstr s => s != ""
  | jarr xs => !xs.isEmpty
  | jobj kvs => !kvs.isEmpty

/-- First binding of a key in a decoded JSON object (Python dict keys are
unique, so first match is the match). -/
def pyLookup (k : String) (kvs : List (String × JsonVal)) : Option JsonVal :=
  (kvs.find? (fun e => e.1 == k)).map (·.2)

/-- Python `k in x` for a string key `k`: key membership for dicts, element
membership for lists, substring test for strings, `TypeError` otherwise. -/
def pyContains (k : String) : JsonVal → Except Unit Bool
  | jobj kvs => .ok (pyLookup k kvs).isSome
  | jarr xs => .ok (xs.any (fun v => match v with | jstr s => s == k | _ => false))
  | jstr s => .ok ((s.splitOn k).length != 1)
  | _ => .error ()

/-- Python `x[k]` for a string key `k`: dict subscription; `TypeError` on
any non-dict (including lists and strings subscripted by a string). -/
def pyGetItem (k : String) : JsonVal → Except Unit JsonVal
  | jobj kvs =>
    match pyLookup k kvs with
    | some v => .ok v
    | none => .error ()
  | _ => .error ()

/-- Python `s.startswith(t)`: string prefix test. -/
def pyStartswith (s t : String) : Bool :=
  t.toList.isPrefixOf s.toList

/-- `os.path.join(base, p)` for a base ending in the separator, as in the
source (`base_dir = "/tmp/"`): an absolute `p` discards the base, anything
else is appended to it. -/
def pyJoin (base p : String) : String :=
  if pyStartswith p "/" then p else base ++ p

/-- `os.path.join(base, x)` applied to an arbitrary JSON value: raises
`TypeError` unless `x` is a string. -/
def pyJoinVal (base : String) : JsonVal → Except Unit String
  | jstr s => .ok (pyJoin base s)
  | _ => .error ()

/-- Split a character list at every slash (`s.split("/")` on the characters). -/
def splitAux : List Char → List Char → List (List Char)
  | [], cur => [cur.reverse]
  | c :: rest, cur =>
    if c = '/' then cur.reverse :: splitAux rest [] else splitAux rest (c :: cur)

/-- The non-empty slash-separated segments of a path string. -/
def splitSegs (s : String) : List String :=
  ((splitAux s.toList []).map (fun cs => String.mk cs)).filter (fun t => t != "")

/-- One left-to-right pass of `posixpath.normpath` segment processing for an
absolute path: `.` is dropped, `..` pops the last kept segment (or is dropped
at the root), anything else is kept.  The accumulator holds kept segments in
reverse. -/
def normSegs (acc : List String) : List String → List String
  | [] => acc.reverse
  | seg :: rest =>
    if seg = "." then normSegs acc rest
    else if seg = ".." then normSegs acc.tail rest
    else normSegs (seg :: acc) rest

/-- `os.path.abspath` on an already-absolute input, i.e. `posixpath.normpath`:
resolve `.` and `..` segments and collapse slashes, except that a path
beginning with exactly two slashes keeps the double-slash root (the POSIX
special case in `posixpath.normpath`: two leading slashes are preserved,
one or three and more collapse to one).  (Every path the handler normalises
is absolute, so the current-directory case of `abspath` never arises;
`abspath` does not resolve symlinks.) -/
def normpathAbs (p : String) : String :=
  let root := if pyStartswith p "//" && !(pyStartswith p "///") then "//" else "/"
  match normSegs [] (splitSegs p) with
  | [] => root
  | seg :: rest => root ++ seg ++ rest.foldl (fun acc s2 => acc ++ "/" ++ s2) ""

/-- The `safe_path` the `/data` handler computes from a string `file_path`:
`os.path.abspath(os.path.join("/tmp/", file_path))`. -/
def resolvePath (fp : String) : String :=
  normpathAbs (pyJoin "/tmp/" fp)

/-- An HTTP response together with the error-counter increments
(`(endpoint, error_type)` labels) recorded while producing it. -/
structure Resp where
  status : Nat
  body : JsonVal
  incs : List (String × String)

/-- 400 response of `/data` when the body is falsy or lacks `file_path`. -/
def invalidDataResp : Resp :=
  ⟨400, jobj [("error", jstr "Invalid input, file_path required")],
    [("/data", "InvalidInput")]⟩

/-- 403 response of `/data` when the prefix check fails. -/
def unauthorizedResp : Resp :=
  ⟨403, jobj [("error", jstr "Unauthorized file path")],
    [("/data", "UnauthorizedAccess")]⟩

/-- 404 response of `/data` when `os.path.isfile` is false. -/
def notFoundResp : Resp :=
  ⟨404, jobj [("error", jstr "File not found")], [("/data", "FileNotFound")]⟩

/-- 200 response of `/data` carrying the file content. -/
def fileOkResp (content : String) : Resp :=
  ⟨200, jobj [("file_content", jstr content)], []⟩

/-- 500 response of `/data` when reading the file raises. -/
def readErrorResp : Resp :=
  ⟨500, jobj [("error", jstr "Error reading file")], [("/data", "FileReadError")]⟩

/-- The `/data` handler (`def data():` in the source).  `body?` is the decoded
JSON body (`none` when `get_json` yields `None`), `isfile` and `readF` the
filesystem. -/
def data (body? : Option JsonVal) (isfile : String → Bool)
    (readF : String → Option String) : Except Unit Resp :=
  match body? with
  | none => .ok invalidDataResp
  | some b =>
    if truthy b = false then .ok invalidDataResp
    else
      match pyContains "file_path" b with
      | .error e => .error e
      | .ok false => .ok invalidDataResp
      | .ok true =>
        match pyGetItem "file_path" b with
        | .error e => .error e
        | .ok fpv =>
          match pyJoinVal "/tmp/" fpv with
          | .error e => .error e
          | .ok joined =>
            if pyStartswith (normpathAbs joined) (normpathAbs "/tmp/") = false then
              .ok unauthorizedResp
            else if isfile (normpathAbs joined) = false then
              .ok notFoundResp
            else
              match readF (normpathAbs joined) with
              | some content => .ok (fileOkResp content)
              | none => .ok readErrorResp

/-- `isinstance(x, (int, float))` on a JSON value: true for ints, floats and
booleans (Python `bool` is a subclass of `int`). -/
def isNumericPy : JsonVal → Bool
  | jint _ => true
  | jfloat _ => true
  | jbool _ => true
  | _ => false

/-- Numeric value of a JSON value for comparison and arithmetic
(`True == 1`, `False == 0`); only applied after `isNumericPy` holds. -/
def numVal : JsonVal → Rat
  | jint n => (n : Rat)
  | jfloat q => q
  | jbool b => if b then 1 else 0
  | _ => 0

/-- `x * 2` preserving Python's numeric type (`int * 2` is an `int`,
`float * 2` a `float`, `bool * 2` an `int`). -/
def pyDouble : JsonVal → JsonVal
  | jint n => jint (n * 2)
  | jfloat q => jfloat (q * 2)
  | jbool b => jint ((if b then (1 : Int) else 0) * 2)
  | v => v

/-- 400 response of `/compute` when the body is falsy or lacks `number`. -/
def invalidComputeResp : Resp :=
  ⟨400, jobj [("error", jstr "Invalid input, number required")],
    [("/compute", "InvalidInput")]⟩

/-- 400 response of `/compute` for a non-numeric `number`. -/
def nonNumericResp : Resp :=
  ⟨400, jobj [("error", jstr "number must be numeric")],
    [("/compute", "NonNumericInput")]⟩

/-- 400 response of `/compute` for a negative `number`. -/
def negativeResp : Resp :=
  ⟨400, jobj [("error", jstr "Negative numbers are not allowed")],
    [("/compute", "NegativeNumber")]⟩

/-- The `/compute` handler (`def compute():` in the source). -/
def compute (body? : Option JsonVal) : Except Unit Resp :=
  match body? with
  | none => .ok invalidComputeResp
  | some b =>
    if truthy b = false then .ok invalidComputeResp
    else
      match pyContains "number" b with
      | .error e => .error e
      | .ok false => .ok invalidComputeResp
      | .ok true =>
        match pyGetItem "number" b with
        | .error e => .error e
        | .ok n =>
          if isNumericPy n = false then .ok nonNumericResp
          else if numVal n < 0 then .ok negativeResp
          else .ok ⟨200, jobj [("result", pyDouble n)], []⟩

/-- The `/health` handler: fixed 200 payload, no counter. -/
def health_check : Resp := ⟨200, jobj [("status", jstr "healthy")], []⟩

/-- The `/info` handler: fixed 200 HTML document, no counter.  The literal
HTML constant of the source is abbreviated to a marker string; no claim
depends on its text. -/
def info : Resp := ⟨200, jstr "static HTML info page", []⟩

/-- The `/metrics` handler: 200 with the text exposition of the registry;
the exposition text itself is abstracted, no counter is touched. -/
def metrics : Resp := ⟨200, jstr "prometheus text exposition", []⟩

/-- The `/error` handler, with the drawn `random.choice([True, False])`
passed in as `coin`. -/
def error (coin : Bool) : Resp :=
  if coin then
    ⟨500, jobj [("error", jstr "A random error occurred!")],
      [("/error", "RandomError")]⟩
  else ⟨200, jobj [("status", jstr "success")], []⟩

/-- A dispatched request: which route was hit and the data it carries. -/
inductive Req where
  | health
  | infoReq
  | metricsReq
  | errorReq (coin : Bool)
  | dataReq (body : Option JsonVal)
  | computeReq (body : Option JsonVal)

/-- Route dispatch at the handler level: the handler result, exceptions
still visible. -/
def dispatchE (isfile : String → Bool) (readF : String → Option String) :
    Req → Except Unit Resp
  | .health => .ok health_check
  | .infoReq => .ok info
  | .metricsReq => .ok metrics
  | .errorReq c => .ok (error c)
  | .dataReq b => data b isfile readF
  | .computeReq b => compute b

/-- Route dispatch at the HTTP level: Flask converts an exception escaping a
handler into a plain 500 Internal Server Error response; no application
counter is touched on that path. -/
def flaskDispatch (isfile : String → Bool) (readF : String → Option String)
    (r : Req) : Resp :=
  match dispatchE isfile readF r with
  | .ok resp => resp
  | .error _ => ⟨500, jstr "Internal Server Error", []⟩

/-- Accumulated middleware metrics: latency observations keyed by path and
request counts keyed by (method, path, status). -/
structure MetricsState where
  latency : List (String × Rat)
  requests : List (String × String × Nat)

/-- The `record_metrics` after-request hook: observe one latency sample for
the path, count one request for (method, path, status), return the response. -/
def record_metrics (startTime now : Rat) (method path : String)
    (response : Resp) (st : MetricsState) : Resp × MetricsState :=
  let request_latency := now - startTime
  (response,
    ⟨st.latency ++ [(path, request_latency)],
     st.requests ++ [(method, path, response.status)]⟩)

/-- The spec's notion of a path lying within the canonical base directory
`/tmp`: it is the base itself or sits strictly below it.  (Spec-side
definition, to be compared with the code's string-prefix check.) -/
def specInsideBase (p : String) : Bool :=
  p == "/tmp" || pyStartswith p "/tmp/"

/-- The spec's notion of a numeric JSON value: an integer or a
floating-point number — in particular not a boolean.  (Spec-side definition,
to be compared with the code's `isinstance` check.) -/
def isNumericSpec : JsonVal → Bool
  | jint _ => true
  | jfloat _ => true
  | _ => false


/-- Helper: whether a JSON value is a Python string. -/
def isStringVal : JsonVal → Bool
  | jstr _ => true
  | _ => false

/-- Helper: a path with the strict prefix `/tmp/` also passes the code's
check against `abspath("/tmp/") = "/tmp"`. -/
lemma pyStartswith_tmp {p : String} (h : pyStartswith p "/tmp/" = true) :
    pyStartswith p "/tmp" = true := by
  simp only [pyStartswith, List.isPrefixOf_iff_prefix] at h ⊢
  exact List.IsPrefix.trans (by decide) h

/-- Helper: a truthy JSON-object body containing the key behaves uniformly in
the shared validation front of both POST handlers. -/
lemma lookup_front {k : String} {kvs : List (String × JsonVal)} {v : JsonVal}
    (h : pyLookup k kvs = some v) :
    truthy (jobj kvs) = true ∧ pyContains k (jobj kvs) = .ok true ∧
      pyGetItem k (jobj kvs) = .ok v := by
  refine ⟨?_, ?_, ?_⟩
  · cases kvs with
    | nil => simp [pyLookup] at h
    | cons a l => simp [truthy]
  · simp [pyContains, h]
  · simp [pyGetItem, h]

/-- Helper: the `/compute` handler on a body whose `number` field is `v`
reduces to the type/sign checks on `v`. -/
lemma compute_of_lookup {kvs : List (String × JsonVal)} {v : JsonVal}
    (h : pyLookup "number" kvs = some v) :
    compute (some (jobj kvs)) =
      (if isNumericPy v = false then .ok nonNumericResp
       else if numVal v < 0 then .ok negativeResp
       else .ok ⟨200, jobj [("result", pyDouble v)], []⟩) := by
  obtain ⟨h1, h2, h3⟩ := lookup_front h
  simp [compute, h1, h2, h3]

/-- Helper: the `/data` handler on a body whose `file_path` field is the
string `fp` reduces to the containment, existence and read outcomes at
`resolvePath fp`. -/
lemma data_of_lookup_str {kvs : List (String × JsonVal)} {fp : String}
    (h : pyLookup "file_path" kvs = some (jstr fp))
    (isfile : String → Bool) (readF : String → Option String) :
    data (some (jobj kvs)) isfile readF =
      (if pyStartswith (resolvePath fp) "/tmp" = false then .ok unauthorizedResp
       else if isfile (resolvePath fp) = false then .ok notFoundResp
       else match readF (resolvePath fp) with
            | some content => .ok (fileOkResp content)
            | none => .ok readErrorResp) := by
  obtain ⟨h1, h2, h3⟩ := lookup_front h
  have hbase : normpathAbs "/tmp/" = "/tmp" := by decide
  simp [data, h1, h2, h3, pyJoinVal, hbase, resolvePath]

/-- Helper: every response the `/data` handler itself returns obeys the
counter discipline — no increment on 200, exactly one increment otherwise. -/
lemma data_incs_disciplined (b : Option JsonVal) (isfile : String → Bool)
    (readF : String → Option String) (r : Resp)
    (h : data b isfile readF = .ok r) :
    (r.status = 200 → r.incs = []) ∧ (r.status ≠ 200 → r.incs.length = 1) := by
  unfold data at h
  repeat' split at h
  all_goals try cases h
  all_goals
    refine ⟨fun hs => ?_, fun hs => ?_⟩ <;>
      simp_all [invalidDataResp, unauthorizedResp, notFoundResp,
        fileOkResp, readErrorResp]

/-- Helper: every response the `/compute` handler itself returns obeys the
counter discipline — no increment on 200, exactly one increment otherwise. -/
lemma compute_incs_disciplined (b : Option JsonVal) (r : Resp)
    (h : compute b = .ok r) :
    (r.status = 200 → r.incs = []) ∧ (r.status ≠ 200 → r.incs.length = 1) := by
  unfold compute at h
  repeat' split at h
  all_goals try cases h
  all_goals
    refine ⟨fun hs => ?_, fun hs => ?_⟩ <;>
      simp_all [invalidComputeResp, nonNumericResp, negativeResp]

/-- C1: the claim states that every request whose resolved path lies outside
the canonical base directory gets a 403 unauthorized-access response and is
never read.  The code instead compares against `abspath("/tmp/") = "/tmp"`
with no trailing separator, so the sibling path `/tmpfoo/secret`, reached via
`file_path = "../tmpfoo/secret"`, resolves outside the base directory yet
passes the check: the file is read and served with 200, no counter
incremented — the code contradicts its own path-traversal comment. -/
theorem C1_traversal_bypass :
    resolvePath "../tmpfoo/secret" = "/tmpfoo/secret" ∧
    specInsideBase "/tmpfoo/secret" = false ∧
    data (some (jobj [("file_path", jstr "../tmpfoo/secret")]))
        (fun s => s == "/tmpfoo/secret")
        (fun s => if s == "/tmpfoo/secret" then some "top secret" else none)
      = .ok (fileOkResp "top secret") :=
  ⟨by decide, by decide, rfl⟩

/-- C2: for a JSON body whose `number` field is a numeric value ≥ 0 — an
integer or a float — `/compute` returns 200 with result exactly the double,
and no error counter is incremented (the response carries no increments). -/
theorem C2_compute_doubles_nonneg (kvsI kvsF : List (String × JsonVal))
    (n : Int) (q : Rat) (hn : 0 ≤ n) (hq : 0 ≤ q)
    (hI : pyLookup "number" kvsI = some (jint n))
    (hF : pyLookup "number" kvsF = some (jfloat q)) :
    compute (some (jobj kvsI)) = .ok ⟨200, jobj [("result", jint (n * 2))], []⟩ ∧
    compute (some (jobj kvsF)) = .ok ⟨200, jobj [("result", jfloat (q * 2))], []⟩ := by
  constructor
  · rw [compute_of_lookup hI]
    have hlt : ¬ ((n : Rat) < 0) := not_lt.mpr (by exact_mod_cast hn)
    simp [isNumericPy, numVal, pyDouble, hlt]
  · rw [compute_of_lookup hF]
    have hlt : ¬ (q < 0) := not_lt.mpr hq
    simp [isNumericPy, numVal, pyDouble, hlt]

/-- Witness for C2 at `number = 21` (the spec's own example, result 42) and
`number = 1.5` (result 3.0). -/
theorem C2_compute_doubles_nonneg_witness :
    compute (some (jobj [("number", jint 21)]))
      = .ok ⟨200, jobj [("result", jint (21 * 2))], []⟩ ∧
    compute (some (jobj [("number", jfloat (3/2))]))
      = .ok ⟨200, jobj [("result", jfloat ((3/2) * 2))], []⟩ :=
  C2_compute_doubles_nonneg [("number", jint 21)] [("number", jfloat (3/2))]
    21 (3/2) (by norm_num) (by norm_num) rfl rfl

/-- C3 (amended): every response a handler itself returns obeys the counter
discipline — a 200 response carries no error-counter increment and a non-200
response carries exactly one; error responses that Flask fabricates from an
exception escaping a handler are exempt (they carry none, see the
counterexample). -/
theorem C3_error_counter_discipline (isfile : String → Bool)
    (readF : String → Option String) (req : Req) (r : Resp)
    (h : dispatchE isfile readF req = .ok r) :
    (r.status = 200 → r.incs = []) ∧ (r.status ≠ 200 → r.incs.length = 1) := by
  cases req with
  | health => cases h; exact ⟨fun _ => rfl, fun hs => absurd rfl hs⟩
  | infoReq => cases h; exact ⟨fun _ => rfl, fun hs => absurd rfl hs⟩
  | metricsReq => cases h; exact ⟨fun _ => rfl, fun hs => absurd rfl hs⟩
  | errorReq c =>
    cases c <;> cases h <;>
      refine ⟨fun hs => ?_, fun hs => ?_⟩ <;> simp_all [error]
  | dataReq b => exact data_incs_disciplined b isfile readF r h
  | computeReq b => exact compute_incs_disciplined b r h

/-- Witness for C3 (amended) at the missing-field request to `/data`, whose
response is the 400 with exactly the InvalidInput increment. -/
theorem C3_error_counter_discipline_witness :
    (invalidDataResp.status = 200 → invalidDataResp.incs = []) ∧
    (invalidDataResp.status ≠ 200 → invalidDataResp.incs.length = 1) :=
  C3_error_counter_discipline (fun _ => false) (fun _ => none)
    (.dataReq none) invalidDataResp rfl

/-- C3 counterexample: a `/data` request whose `file_path` is the number 0
makes the handler raise in `os.path.join`; Flask turns that into a 500 error
response, and no error counter is incremented — an error response without
exactly one counter increment, refuting the claim as stated. -/
theorem C3_counterexample_uncounted_error :
    (flaskDispatch (fun _ => false) (fun _ => none)
        (.dataReq (some (jobj [("file_path", jint 0)])))).status = 500 ∧
    (flaskDispatch (fun _ => false) (fun _ => none)
        (.dataReq (some (jobj [("file_path", jint 0)])))).incs = [] :=
  ⟨rfl, rfl⟩

/-- C4: a `/data` request naming an existing regular file inside the base
directory (resolved path strictly under `/tmp/`, `isfile` true) returns 200
with exactly the file's text when the read succeeds, and the 500
read-failure response with the FileReadError increment when the read
raises. -/
theorem C4_read_file_inside_base (fp p c : String) (isfile : String → Bool)
    (readF : String → Option String)
    (hres : resolvePath fp = p)
    (hin : pyStartswith p "/tmp/" = true)
    (hf : isfile p = true) :
    (readF p = some c →
      data (some (jobj [("file_path", jstr fp)])) isfile readF
        = .ok (fileOkResp c)) ∧
    (readF p = none →
      data (some (jobj [("file_path", jstr fp)])) isfile readF
        = .ok readErrorResp) := by
  have hstart := pyStartswith_tmp hin
  have hl : pyLookup "file_path" [("file_path", jstr fp)] = some (jstr fp) := rfl
  constructor <;> intro hr <;>
    rw [data_of_lookup_str hl isfile readF, hres] <;>
    simp [hstart, hf, hr]

/-- Witness for C4 at `file_path = "hello.txt"` with `/tmp/hello.txt`
containing `"hi"`. -/
theorem C4_read_file_inside_base_witness :
    data (some (jobj [("file_path", jstr "hello.txt")]))
        (fun s => s == "/tmp/hello.txt") (fun _ => some "hi")
      = .ok (fileOkResp "hi") :=
  (C4_read_file_inside_base "hello.txt" "/tmp/hello.txt" "hi"
    (fun s => s == "/tmp/hello.txt") (fun _ => some "hi")
    (by decide) (by decide) (by decide)).1 rfl

/-- C5 (amended): a `number` value that is neither an int, a float nor a
boolean is rejected by `/compute` with 400 and the NonNumericInput increment;
booleans slip through the `isinstance(x, (int, float))` check because Python
`bool` is a subclass of `int` (see the counterexample). -/
theorem C5_nonnumeric_rejected (kvs : List (String × JsonVal)) (v : JsonVal)
    (hv : isNumericPy v = false)
    (h : pyLookup "number" kvs = some v) :
    compute (some (jobj kvs)) = .ok nonNumericResp := by
  rw [compute_of_lookup h]
  simp [hv]

/-- Witness for C5 (amended) at `number = "abc"`. -/
theorem C5_nonnumeric_rejected_witness :
    compute (some (jobj [("number", jstr "abc")])) = .ok nonNumericResp :=
  C5_nonnumeric_rejected [("number", jstr "abc")] (jstr "abc") rfl rfl

/-- C5 counterexample: the boolean `true` is not numeric in the claim's sense
(not an integer, not a float), yet `/compute` accepts it and returns 200 with
result 2 instead of the claimed 400 NonNumericInput response. -/
theorem C5_counterexample_bool :
    isNumericSpec (jbool true) = false ∧
    compute (some (jobj [("number", jbool true)]))
      = .ok ⟨200, jobj [("result", jint 2)], []⟩ :=
  ⟨rfl, rfl⟩

/-- C6: a numeric `number` below zero — integer or float — is rejected by
`/compute` with 400 and the NegativeNumber increment; the third conjunct
shows the numeric-type check fires first (a non-numeric value that would
read as negative is classified NonNumericInput, not NegativeNumber). -/
theorem C6_negative_rejected (kvsI kvsF : List (String × JsonVal))
    (n : Int) (q : Rat) (hn : n < 0) (hq : q < 0)
    (hI : pyLookup "number" kvsI = some (jint n))
    (hF : pyLookup "number" kvsF = some (jfloat q)) :
    compute (some (jobj kvsI)) = .ok negativeResp ∧
    compute (some (jobj kvsF)) = .ok negativeResp ∧
    compute (some (jobj [("number", jstr "-1")])) = .ok nonNumericResp := by
  refine ⟨?_, ?_, rfl⟩
  · rw [compute_of_lookup hI]
    have hlt : (n : Rat) < 0 := by exact_mod_cast hn
    simp [isNumericPy, numVal, hlt]
  · rw [compute_of_lookup hF]
    simp [isNumericPy, numVal, hq]

/-- Witness for C6 at `number = -3` (the spec's own example) and
`number = -0.5`. -/
theorem C6_negative_rejected_witness :
    compute (some (jobj [("number", jint (-3))])) = .ok negativeResp ∧
    compute (some (jobj [("number", jfloat (-1/2))])) = .ok negativeResp ∧
    compute (some (jobj [("number", jstr "-1")])) = .ok nonNumericResp :=
  C6_negative_rejected [("number", jint (-3))] [("number", jfloat (-1/2))]
    (-3) (-1/2) (by norm_num) (by norm_num) rfl rfl

/-- C7: a `/data` request with an absent body, or with a JSON-object body
lacking the `file_path` key, yields the 400 invalid-input response with the
InvalidInput increment, for every filesystem — so before any path
resolution, containment check or file access. -/
theorem C7_missing_file_path (isfile : String → Bool)
    (readF : String → Option String) (kvs : List (String × JsonVal))
    (hno : pyLookup "file_path" kvs = none) :
    data none isfile readF = .ok invalidDataResp ∧
    data (some (jobj kvs)) isfile readF = .ok invalidDataResp := by
  refine ⟨rfl, ?_⟩
  cases kvs with
  | nil => rfl
  | cons a l => simp [data, truthy, pyContains, hno]

/-- Witness for C7 with a body holding only an unrelated key. -/
theorem C7_missing_file_path_witness :
    data (some (jobj [("path", jstr "x")])) (fun _ => true) (fun _ => some "")
      = .ok invalidDataResp :=
  (C7_missing_file_path (fun _ => true) (fun _ => some "")
    [("path", jstr "x")] rfl).2

/-- C8: a `/data` request whose resolved path is strictly inside the base
directory but is not an existing regular file yields the 404 response with
the FileNotFound increment, for every read function — so no file read is
attempted. -/
theorem C8_not_found_inside_base (fp p : String) (isfile : String → Bool)
    (readF : String → Option String)
    (hres : resolvePath fp = p)
    (hin : pyStartswith p "/tmp/" = true)
    (hnf : isfile p = false) :
    data (some (jobj [("file_path", jstr fp)])) isfile readF
      = .ok notFoundResp := by
  have hstart := pyStartswith_tmp hin
  have hl : pyLookup "file_path" [("file_path", jstr fp)] = some (jstr fp) := rfl
  rw [data_of_lookup_str hl isfile readF, hres]
  simp [hstart, hnf]

/-- Witness for C8 at `file_path = "notes.txt"` over an empty filesystem. -/
theorem C8_not_found_inside_base_witness :
    data (some (jobj [("file_path", jstr "notes.txt")]))
        (fun _ => false) (fun _ => none)
      = .ok notFoundResp :=
  C8_not_found_inside_base "notes.txt" "/tmp/notes.txt"
    (fun _ => false) (fun _ => none) (by decide) (by decide) rfl

/-- C9: the `record_metrics` after-request hook returns exactly the response
it was given and its only effects are appending one latency observation
keyed by the request path and one request count keyed by
(method, path, status); it is a total function, with no failure path. -/
theorem C9_record_metrics_frame (startTime now : Rat) (method path : String)
    (response : Resp) (st : MetricsState) :
    record_metrics startTime now method path response st =
      (response,
        ⟨st.latency ++ [(path, now - startTime)],
         st.requests ++ [(method, path, response.status)]⟩) :=
  rfl

/-- C10: a `/data` request whose `file_path` value is not a string makes the
handler raise an uncaught exception at `os.path.join` — Flask answers with a
bare 500 — and no labeled error counter is incremented for the request. -/
theorem C10_nonstring_path_raises (v : JsonVal) (hv : isStringVal v = false)
    (kvs : List (String × JsonVal))
    (h : pyLookup "file_path" kvs = some v)
    (isfile : String → Bool) (readF : String → Option String) :
    data (some (jobj kvs)) isfile readF = .error () ∧
    flaskDispatch isfile readF (.dataReq (some (jobj kvs)))
      = ⟨500, jstr "Internal Server Error", []⟩ := by
  obtain ⟨h1, h2, h3⟩ := lookup_front h
  have hjoin : pyJoinVal "/tmp/" v = .error () := by
    cases v <;> first | rfl | simp [isStringVal] at hv
  have hdata : data (some (jobj kvs)) isfile readF = .error () := by
    simp [data, h1, h2, h3, hjoin]
  exact ⟨hdata, by simp [flaskDispatch, dispatchE, hdata]⟩

/-- Witness for C10 at `file_path = 5`. -/
theorem C10_nonstring_path_raises_witness :
    data (some (jobj [("file_path", jint 5)])) (fun _ => true) (fun _ => some "")
        = .error () ∧
    flaskDispatch (fun _ => true) (fun _ => some "")
        (.dataReq (some (jobj [("file_path", jint 5)])))
      = ⟨500, jstr "Internal Server Error", []⟩ :=
  C10_nonstring_path_raises (jint 5) rfl [("file_path", jint 5)] rfl
    (fun _ => true) (fun _ => some "")
